import Mathlib

/-!
Verification of the market-making backtest core (`run_backtest.py`).

The embedding is shallow: each phase of the script becomes a pure Lean
function over exact rational arithmetic (`ℚ` stands for the script's
real-number arithmetic), and the mutable loop state becomes explicit
records threaded through folds.

Phase 1 (lines 39-75 of the script) replays the event feed into a
per-level order book and emits strided snapshots; phase 2 (lines
109-156) folds a market-making step over the snapshot rows.
-/

namespace Backtest

/-- One row of the tick feed.  `side := none` models a NaN / absent
side field (`pd.isna(row['side'])`); any other CSV text is `some s`.
`level := none` models a NaN level, which the script coerces to 0. -/
structure Event where
  ts : ℚ
  event_type : String
  side : Option String
  price : ℚ
  size : ℚ
  level : Option ℤ
deriving DecidableEq, Repr

/-- A per-side book: association list from depth level to (price, size),
modelling the python dict `level -> (price, size)`. -/
abbrev Levels := List (ℤ × ℚ × ℚ)

structure Book where
  bids : Levels
  asks : Levels
deriving DecidableEq, Repr

def Book.empty : Book := ⟨[], []⟩

/-- `d[level] = (price, size)`: replace in place if the key is present,
otherwise append (python dict update semantics). -/
def setLevel : Levels → ℤ → ℚ × ℚ → Levels
  | [], k, v => [(k, v)]
  | (k', v') :: rest, k, v =>
      if k' = k then (k, v) :: rest else (k', v') :: setLevel rest k v

/-- `if level in d: del d[level]` — remove the key if present. -/
def delLevel (l : Levels) (k : ℤ) : Levels := l.filter (fun x => x.1 != k)

/-- Lines 49-61: update the book from one event.  An absent side is a
no-op; side `"B"` updates the bid map; ANY other present side falls into
the `else` branch and updates the ask map. -/
def applyEvent (book : Book) (e : Event) : Book :=
  match e.side with
  | none => book
  | some s =>
    let level := e.level.getD 0
    if s = "B" then
      if e.event_type = "add" ∨ e.event_type = "modify" then
        { book with bids := setLevel book.bids level (e.price, e.size) }
      else if e.event_type = "cancel" then
        { book with bids := delLevel book.bids level }
      else book
    else
      if e.event_type = "add" ∨ e.event_type = "modify" then
        { book with asks := setLevel book.asks level (e.price, e.size) }
      else if e.event_type = "cancel" then
        { book with asks := delLevel book.asks level }
      else book

/-- python `max` over a nonempty list (the 0 default is never reached:
every use is guarded by nonemptiness of the side). -/
def listMax : List ℚ → ℚ
  | [] => 0
  | x :: xs => xs.foldl max x

/-- python `min` over a nonempty list. -/
def listMin : List ℚ → ℚ
  | [] => 0
  | x :: xs => xs.foldl min x

def levelPrices (l : Levels) : List ℚ := l.map (fun x => x.2.1)

def levelSizes (l : Levels) : List ℚ := l.map (fun x => x.2.2)

/-- One row of the `market_data` frame (lines 65-88): the derived
snapshot values stored at sampling time, with `mid` computed from the
stored best bid/ask exactly as the DataFrame comprehension does. -/
structure Snapshot where
  ts : ℚ
  bid : ℚ
  ask : ℚ
  mid : ℚ
  spread : ℚ
  bid_size : ℚ
  ask_size : ℚ
deriving DecidableEq, Repr

/-- Lines 65-75 and 84: snapshot of the current book at timestamp `t`. -/
def mkSnap (t : ℚ) (book : Book) : Snapshot :=
  let best_bid := listMax (levelPrices book.bids)
  let best_ask := listMin (levelPrices book.asks)
  { ts := t
    bid := best_bid
    ask := best_ask
    mid := (best_bid + best_ask) / 2
    spread := best_ask - best_bid
    bid_size := (levelSizes book.bids).sum
    ask_size := (levelSizes book.asks).sum }

/-- Line 64: `idx % 100 == 0` — the sampling stride is the literal 100. -/
def SNAPSHOT_STRIDE : ℕ := 100

/-- The book-building loop (lines 39-75).  `idx` is the row index of the
current event.  A NaN side `continue`s before both the book update and
the snapshot check; otherwise the event is applied and a snapshot is
taken when the index is on the stride and both sides are nonempty. -/
def buildAux : ℕ → Book → List Event → List Snapshot
  | _, _, [] => []
  | idx, book, e :: rest =>
    match e.side with
    | none => buildAux (idx + 1) book rest
    | some _ =>
      let book' := applyEvent book e
      if idx % SNAPSHOT_STRIDE = 0 ∧ book'.bids ≠ [] ∧ book'.asks ≠ [] then
        mkSnap e.ts book' :: buildAux (idx + 1) book' rest
      else
        buildAux (idx + 1) book' rest

/-- The full first pass: events, starting from an empty book at index 0. -/
def buildSnapshots (events : List Event) : List Snapshot :=
  buildAux 0 Book.empty events

/-! ## Phase 2: market-making simulation (lines 96-156) -/

/-- Line 96: `POSITION_LIMIT = 100`. -/
def POSITION_LIMIT : ℤ := 100

/-- Line 97: `RISK_AVERSION = 0.01`. -/
def RISK_AVERSION : ℚ := 1 / 100

/-- Line 98: `initial_cash = 100000.0`. -/
def initial_cash : ℚ := 100000

/-- The tunable parameters of the market-making pass.  The script fixes
them to the constants above; the record lets the theorems quantify over
the configuration where a claim does. -/
structure Config where
  positionLimit : ℤ
  riskAversion : ℚ
  initialCash : ℚ
deriving DecidableEq, Repr

def defaultCfg : Config := ⟨POSITION_LIMIT, RISK_AVERSION, initial_cash⟩

/-- One entry of the `trades` list (lines 132-138, 145-151). -/
structure Trade where
  time : ℚ
  side : String
  price : ℚ
  size : ℤ
  position : ℤ
deriving DecidableEq, Repr

/-- The mutable state of the simulation loop (lines 100-104). -/
structure MMState where
  position : ℤ
  cash : ℚ
  trades : List Trade
  pnl_history : List ℚ
deriving DecidableEq, Repr

def initState (cfg : Config) : MMState :=
  { position := 0, cash := cfg.initialCash, trades := [], pnl_history := [] }

/-- Line 117: `inventory_penalty = position * RISK_AVERSION * 0.0001`. -/
def inventoryPenalty (ra : ℚ) (position : ℤ) : ℚ :=
  (position : ℚ) * ra * (1 / 10000)

/-- Line 120: `our_bid = mid - spread/2 - inventory_penalty`. -/
def ourBidQuote (ra mid spread : ℚ) (position : ℤ) : ℚ :=
  mid - spread / 2 - inventoryPenalty ra position

/-- Line 121: `our_ask = mid + spread/2 - inventory_penalty`. -/
def ourAskQuote (ra mid spread : ℚ) (position : ℤ) : ℚ :=
  mid + spread / 2 - inventoryPenalty ra position

/-- Condition of the SELL branch (line 128): the market ask crosses our
bid and the position guard passes. -/
def sellReady (cfg : Config) (st : MMState) (row : Snapshot) : Prop :=
  row.ask ≤ ourBidQuote cfg.riskAversion row.mid row.spread st.position ∧
    st.position > -cfg.positionLimit

/-- Condition of the BUY branch (line 141). -/
def buyReady (cfg : Config) (st : MMState) (row : Snapshot) : Prop :=
  row.bid ≥ ourAskQuote cfg.riskAversion row.mid row.spread st.position ∧
    st.position < cfg.positionLimit

instance (cfg : Config) (st : MMState) (row : Snapshot) :
    Decidable (sellReady cfg st row) := by
  unfold sellReady; infer_instance

instance (cfg : Config) (st : MMState) (row : Snapshot) :
    Decidable (buyReady cfg st row) := by
  unfold buyReady; infer_instance

/-- Lines 129-138: execute a SELL of 10 shares at our bid. -/
def sellExec (cfg : Config) (st : MMState) (row : Snapshot) : MMState :=
  let trade_price := ourBidQuote cfg.riskAversion row.mid row.spread st.position
  { st with
    position := st.position - 10
    cash := st.cash + trade_price * 10
    trades := st.trades ++ [⟨row.ts, "SELL", trade_price, 10, st.position - 10⟩] }

/-- Lines 142-151: execute a BUY of 10 shares at our ask. -/
def buyExec (cfg : Config) (st : MMState) (row : Snapshot) : MMState :=
  let trade_price := ourAskQuote cfg.riskAversion row.mid row.spread st.position
  { st with
    position := st.position + 10
    cash := st.cash - trade_price * 10
    trades := st.trades ++ [⟨row.ts, "BUY", trade_price, 10, st.position + 10⟩] }

/-- Lines 128-151: the `if` / `elif` fill logic — SELL first, BUY only
when the whole SELL condition (price and guard) failed. -/
def fillStep (cfg : Config) (st : MMState) (row : Snapshot) : MMState :=
  if sellReady cfg st row then sellExec cfg st row
  else if buyReady cfg st row then buyExec cfg st row
  else st

/-- Lines 153-156: unconditionally append the total PnL computed from
the post-fill state and this row's mid. -/
def appendPnl (cfg : Config) (row : Snapshot) (st : MMState) : MMState :=
  { st with
    pnl_history := st.pnl_history ++ [(st.cash - cfg.initialCash) + (st.position : ℚ) * row.mid] }

/-- One iteration of the loop body (lines 109-156). -/
def mmStep (cfg : Config) (st : MMState) (row : Snapshot) : MMState :=
  appendPnl cfg row (fillStep cfg st row)

/-- The whole loop: `for idx in range(1, len(market_data))` visits every
row but the first, in order (`prev_row` is read but never used). -/
def runMM (cfg : Config) (snaps : List Snapshot) : MMState :=
  (snaps.drop 1).foldl (mmStep cfg) (initState cfg)

/-- The complete pipeline of the script with its hard-coded constants. -/
def backtest (events : List Event) : MMState :=
  runMM defaultCfg (buildSnapshots events)

/-! ## Concrete inputs used by witnesses and counterexamples -/

/-- An add of a bid level. -/
def evB : Event := ⟨1, "add", some "B", 100, 10, some 0⟩

/-- An add of an ask level. -/
def evS : Event := ⟨2, "add", some "S", 101, 10, some 0⟩

/-- An event whose side is absent (NaN). -/
def evNaN : Event := ⟨3, "add", none, 100, 10, some 0⟩

/-- An add whose side text is neither "B" nor "S". -/
def evX : Event := ⟨4, "add", some "X", 5, 2, some 0⟩

/-- A feed of 101 events: a bid add, an ask add, then 99 NaN-side
events, so that the event at index 100 has an absent side while both
book sides are populated. -/
def c4feed : List Event := [evB, evS] ++ List.replicate 99 evNaN

/-- A touching book: bid = ask = 100, mid 100, spread 0 (the values the
snapshot pass would store for such a book). -/
def snapTouch : Snapshot := ⟨5, 100, 100, 100, 0, 10, 10⟩

/-- A crossed book: bid 101 above ask 100, mid 100.5, spread -1. -/
def snapCrossed : Snapshot := ⟨6, 101, 100, 201 / 2, -1, 10, 10⟩

/-- A loop state sitting exactly at the short position limit. -/
def stShortCap : MMState := ⟨-100, 0, [], []⟩

/-- A configuration with a non-positive position limit. -/
def cfgZero : Config := ⟨0, 1 / 100, 100000⟩

/-! ## Helper lemmas -/

lemma fillStep_pnl (cfg : Config) (st : MMState) (row : Snapshot) :
    (fillStep cfg st row).pnl_history = st.pnl_history := by
  unfold fillStep
  split_ifs <;> rfl

lemma mmStep_pnl_length (cfg : Config) (st : MMState) (row : Snapshot) :
    (mmStep cfg st row).pnl_history.length = st.pnl_history.length + 1 := by
  unfold mmStep appendPnl
  simp [fillStep_pnl]

lemma foldl_pnl_length (cfg : Config) (l : List Snapshot) (st : MMState) :
    (l.foldl (mmStep cfg) st).pnl_history.length = st.pnl_history.length + l.length := by
  induction l generalizing st with
  | nil => simp
  | cons a t ih =>
    simp only [List.foldl_cons, ih, mmStep_pnl_length, List.length_cons]
    omega

/-- The loop-state invariant: the position is a multiple of the 10-share
lot, sits within the ±100 position limit, and every recorded trade
carries a lot-multiple resulting position. -/
def mmInv (st : MMState) : Prop :=
  st.position % 10 = 0 ∧ -100 ≤ st.position ∧ st.position ≤ 100 ∧
    st.trades.all (fun t => t.position % 10 == 0) = true

lemma mmStep_inv (st : MMState) (row : Snapshot) (h : mmInv st) :
    mmInv (mmStep defaultCfg st row) := by
  obtain ⟨hmod, hlo, hhi, hall⟩ := h
  unfold mmStep appendPnl mmInv fillStep
  split_ifs with hs hb
  · have hguard : st.position > -100 := hs.2
    unfold sellExec
    dsimp only
    refine ⟨by omega, by omega, by omega, ?_⟩
    simp only [List.all_append, hall, Bool.true_and, List.all_cons,
      List.all_nil, Bool.and_true, beq_iff_eq]
    omega
  · have hguard : st.position < 100 := hb.2
    unfold buyExec
    dsimp only
    refine ⟨by omega, by omega, by omega, ?_⟩
    simp only [List.all_append, hall, Bool.true_and, List.all_cons,
      List.all_nil, Bool.and_true, beq_iff_eq]
    omega
  · exact ⟨hmod, hlo, hhi, hall⟩

lemma foldl_inv (l : List Snapshot) (st : MMState) (h : mmInv st) :
    mmInv (l.foldl (mmStep defaultCfg) st) := by
  induction l generalizing st with
  | nil => exact h
  | cons a t ih => exact ih _ (mmStep_inv _ _ h)

lemma runMM_inv (snaps : List Snapshot) : mmInv (runMM defaultCfg snaps) :=
  foldl_inv _ _ ⟨rfl, by simp [initState], by simp [initState], rfl⟩

/-! ## Claims -/

/-- C5: the quote engine satisfies
`inventory_penalty = inventory * risk_aversion * 1e-4`,
`bid_quote = mid - spread/2 - penalty`,
`ask_quote = mid + spread/2 - penalty`;
hence `ask_quote - bid_quote = spread` for every inventory, and at
inventory 0 the quotes are `mid - spread/2` and `mid + spread/2`. -/
theorem c5_quote_algebra (ra mid spread : ℚ) (position : ℤ) :
    inventoryPenalty ra position = (position : ℚ) * ra * (1 / 10000) ∧
    ourBidQuote ra mid spread position =
      mid - spread / 2 - inventoryPenalty ra position ∧
    ourAskQuote ra mid spread position =
      mid + spread / 2 - inventoryPenalty ra position ∧
    ourAskQuote ra mid spread position - ourBidQuote ra mid spread position = spread ∧
    ourBidQuote ra mid spread 0 = mid - spread / 2 ∧
    ourAskQuote ra mid spread 0 = mid + spread / 2 := by
  refine ⟨rfl, rfl, rfl, ?_, ?_, ?_⟩ <;>
    simp [ourBidQuote, ourAskQuote, inventoryPenalty]

/-- C2 (amended): an event whose side is absent leaves the book
unchanged, but an event with any present side other than "B" is NOT a
no-op: it is processed exactly as an ask-side ("S") event. -/
theorem c2_side_dispatch (book : Book) (e : Event) :
    (e.side = none → applyEvent book e = book) ∧
    (∀ s : String, e.side = some s → s ≠ "B" →
      applyEvent book e = applyEvent book { e with side := some "S" }) := by
  constructor
  · intro h
    unfold applyEvent
    rw [h]
  · intro s hs hne
    unfold applyEvent
    rw [hs]
    simp only [if_neg hne]
    have : ("S" : String) = "B" ↔ False := by simp
    simp [this]

/-- C2 witness: both cases of the amended statement at concrete inputs:
the NaN-side event is a no-op, and the side-"X" add behaves exactly like
a side-"S" add. -/
theorem c2_side_dispatch_witness :
    applyEvent Book.empty evNaN = Book.empty ∧
    applyEvent Book.empty evX = applyEvent Book.empty { evX with side := some "S" } :=
  ⟨(c2_side_dispatch Book.empty evNaN).1 rfl,
   (c2_side_dispatch Book.empty evX).2 "X" rfl (by decide)⟩

/-- C2 counterexample: the claim says any event with side outside
B, S leaves both level maps exactly unchanged; but the add event
with side "X" inserts level 0 into the ask map of the empty book. -/
theorem c2_counterexample :
    (applyEvent Book.empty evX).asks = [(0, 5, 2)] ∧ Book.empty.asks = [] :=
  ⟨rfl, rfl⟩

/-- C3: the pipeline is a pure function of the event sequence and the
configuration: two runs over the same events with the same configuration
produce element-for-element equal trade logs and PnL histories. -/
theorem c3_determinism (events : List Event) (cfg : Config) (r1 r2 : MMState)
    (h1 : r1 = runMM cfg (buildSnapshots events))
    (h2 : r2 = runMM cfg (buildSnapshots events)) :
    r1.trades = r2.trades ∧ r1.pnl_history = r2.pnl_history := by
  subst h1
  subst h2
  exact ⟨rfl, rfl⟩

/-- C3 witness: two runs over a concrete feed coincide. -/
theorem c3_determinism_witness :
    (runMM defaultCfg (buildSnapshots c4feed)).trades =
      (runMM defaultCfg (buildSnapshots c4feed)).trades ∧
    (runMM defaultCfg (buildSnapshots c4feed)).pnl_history =
      (runMM defaultCfg (buildSnapshots c4feed)).pnl_history :=
  c3_determinism c4feed defaultCfg _ _ rfl rfl

/-- C1: for every event feed and every prefix of the snapshot sequence
(PnL values are appended once per loop step, so the state after each
prefix is the state at each `pnl_history` append), the position stays
within ±PositionLimit = ±100; moreover a step can change the position
only when one of the two guarded fill conditions held, so a fill whose
guard fails leaves the inventory unchanged by that (skipped) fill. -/
theorem c1_position_limit (events : List Event) (n : ℕ)
    (st : MMState) (row : Snapshot) :
    |(runMM defaultCfg ((buildSnapshots events).take n)).position| ≤ 100 ∧
    ((mmStep defaultCfg st row).position = st.position ∨
      sellReady defaultCfg st row ∨ buyReady defaultCfg st row) := by
  constructor
  · obtain ⟨-, hlo, hhi, -⟩ := runMM_inv ((buildSnapshots events).take n)
    exact abs_le.mpr ⟨hlo, hhi⟩
  · unfold mmStep appendPnl fillStep
    split_ifs with hs hb
    · exact Or.inr (Or.inl hs)
    · exact Or.inr (Or.inr hb)
    · exact Or.inl rfl

/-- C10: starting from position 0, the position after any prefix of the
run is a multiple of the 10-share lot, every logged trade records a
lot-multiple position, and a single step either leaves both the trade
log and the position unchanged or appends exactly one trade while moving
the position by exactly +10 or -10. -/
theorem c10_lot_granularity (events : List Event) (n : ℕ)
    (st : MMState) (row : Snapshot) :
    (runMM defaultCfg ((buildSnapshots events).take n)).position % 10 = 0 ∧
    (runMM defaultCfg ((buildSnapshots events).take n)).trades.all
      (fun t => t.position % 10 == 0) = true ∧
    (((mmStep defaultCfg st row).trades = st.trades ∧
        (mmStep defaultCfg st row).position = st.position) ∨
      ((mmStep defaultCfg st row).trades.length = st.trades.length + 1 ∧
        ((mmStep defaultCfg st row).position = st.position + 10 ∨
          (mmStep defaultCfg st row).position = st.position - 10))) := by
  refine ⟨(runMM_inv _).1, (runMM_inv _).2.2.2, ?_⟩
  unfold mmStep appendPnl fillStep
  split_ifs with hs hb
  · exact Or.inr ⟨by simp [sellExec], Or.inr rfl⟩
  · exact Or.inr ⟨by simp [buyExec], Or.inl rfl⟩
  · exact Or.inl ⟨rfl, rfl⟩

/-- C4 (amended): a snapshot is emitted for an event if and only if the
event's side is PRESENT, its index is on the stride, and both sides of
the book are nonempty after the event is applied — an absent-side event
is skipped before the snapshot check, so it never yields a snapshot even
on a stride index with a two-sided book; the emitted snapshot carries
the event's timestamp and `spread = best_ask - best_bid`. -/
theorem c4_snapshot_emission (idx : ℕ) (book : Book) (e : Event)
    (rest : List Event) :
    buildAux idx book (e :: rest) =
      (if e.side.isSome = true ∧ idx % SNAPSHOT_STRIDE = 0 ∧
          (applyEvent book e).bids ≠ [] ∧ (applyEvent book e).asks ≠ []
        then [mkSnap e.ts (applyEvent book e)] else []) ++
        buildAux (idx + 1) (applyEvent book e) rest ∧
    (mkSnap e.ts (applyEvent book e)).ts = e.ts ∧
    (mkSnap e.ts (applyEvent book e)).spread =
      (mkSnap e.ts (applyEvent book e)).ask - (mkSnap e.ts (applyEvent book e)).bid := by
  refine ⟨?_, rfl, rfl⟩
  cases h : e.side with
  | none =>
    have hap : applyEvent book e = book := by
      unfold applyEvent
      rw [h]
    rw [hap]
    simp [buildAux, h]
  | some s =>
    by_cases hc : idx % SNAPSHOT_STRIDE = 0 ∧
        (applyEvent book e).bids ≠ [] ∧ (applyEvent book e).asks ≠ [] <;>
      simp [buildAux, h, hc]

/-- C4 counterexample: in `c4feed` the event at index 100 has an absent
side, the index is on the stride, and both book sides are nonempty at
that moment, yet the pass emits NO snapshot at all — refuting the
claimed "if" direction (index on stride and two-sided book ⇒ emission). -/
theorem c4_counterexample :
    buildSnapshots c4feed = [] ∧
    c4feed.length = 101 ∧
    c4feed.getD 100 evB = evNaN ∧
    (100 : ℕ) % SNAPSHOT_STRIDE = 0 ∧
    (List.foldl applyEvent Book.empty c4feed).bids ≠ [] ∧
    (List.foldl applyEvent Book.empty c4feed).asks ≠ [] := by
  decide

/-- C6: whenever the SELL conditions hold at a step (market ask at or
below our bid, position strictly above the short cap), the step sells
exactly one 10-share lot at our bid: position drops by 10, cash grows by
`our_bid * 10`, and one SELL trade recording the new position is
appended to the trade log. -/
theorem c6_sell_fill (st : MMState) (row : Snapshot)
    (hp : row.ask ≤ ourBidQuote defaultCfg.riskAversion row.mid row.spread st.position)
    (hg : st.position > -defaultCfg.positionLimit) :
    (mmStep defaultCfg st row).position = st.position - 10 ∧
    (mmStep defaultCfg st row).cash =
      st.cash + ourBidQuote defaultCfg.riskAversion row.mid row.spread st.position * 10 ∧
    (mmStep defaultCfg st row).trades =
      st.trades ++ [⟨row.ts, "SELL",
        ourBidQuote defaultCfg.riskAversion row.mid row.spread st.position, 10,
        st.position - 10⟩] := by
  have hready : sellReady defaultCfg st row := ⟨hp, hg⟩
  unfold mmStep appendPnl fillStep
  rw [if_pos hready]
  exact ⟨rfl, rfl, rfl⟩

/-- C6 witness (Scenario C): from position 0 and cash 100000, a touching
book at 100 triggers one SELL of 10 at 100.00, so the position becomes
-10 and the cash grows by exactly 1000.00 to 101000. -/
theorem c6_sell_fill_witness :
    (initState defaultCfg).position > -defaultCfg.positionLimit ∧
    (mmStep defaultCfg (initState defaultCfg) snapTouch).position =
      (initState defaultCfg).position - 10 ∧
    (mmStep defaultCfg (initState defaultCfg) snapTouch).cash = 101000 := by
  have hp : snapTouch.ask ≤ ourBidQuote defaultCfg.riskAversion snapTouch.mid
      snapTouch.spread (initState defaultCfg).position := by
    unfold ourBidQuote inventoryPenalty
    norm_num [snapTouch, initState, defaultCfg, RISK_AVERSION]
  have hg : (initState defaultCfg).position > -defaultCfg.positionLimit := by decide
  have h := c6_sell_fill (initState defaultCfg) snapTouch hp hg
  refine ⟨hg, h.1, ?_⟩
  rw [h.2.1]
  unfold ourBidQuote inventoryPenalty
  norm_num [snapTouch, initState, defaultCfg, RISK_AVERSION, initial_cash]

/-- C7: each step appends at most one trade; whenever the full SELL
condition holds it wins outright (the appended trade is the SELL trade,
whatever the BUY condition says); and a BUY trade can only have been
appended when the SELL condition failed. -/
theorem c7_sell_before_buy (cfg : Config) (st : MMState) (row : Snapshot) :
    (mmStep cfg st row).trades.length ≤ st.trades.length + 1 ∧
    (sellReady cfg st row →
      (mmStep cfg st row).trades =
        st.trades ++ [⟨row.ts, "SELL",
          ourBidQuote cfg.riskAversion row.mid row.spread st.position, 10,
          st.position - 10⟩]) ∧
    (∀ tr : Trade, (mmStep cfg st row).trades = st.trades ++ [tr] →
      tr.side = "BUY" → ¬sellReady cfg st row) := by
  unfold mmStep appendPnl fillStep
  split_ifs with hs hb
  · refine ⟨by simp [sellExec], fun _ => rfl, ?_⟩
    intro tr heq hside _
    unfold sellExec at heq
    dsimp only at heq
    have heq' : (⟨row.ts, "SELL",
        ourBidQuote cfg.riskAversion row.mid row.spread st.position, 10,
        st.position - 10⟩ : Trade) = tr := by
      simpa using heq
    rw [← heq'] at hside
    simp at hside
  · exact ⟨by simp [buyExec], fun hsell => absurd hsell hs, fun _ _ _ => hs⟩
  · refine ⟨by dsimp only; omega, fun hsell => absurd hsell hs, ?_⟩
    intro tr heq _
    dsimp only at heq
    exact absurd heq (by simp)

/-- C7 witness: a crossed book where both the SELL and the BUY
conditions hold simultaneously, and the executed trade is the SELL. -/
theorem c7_sell_before_buy_witness :
    sellReady defaultCfg (initState defaultCfg) snapCrossed ∧
    buyReady defaultCfg (initState defaultCfg) snapCrossed ∧
    (mmStep defaultCfg (initState defaultCfg) snapCrossed).trades =
      (initState defaultCfg).trades ++ [⟨snapCrossed.ts, "SELL",
        ourBidQuote defaultCfg.riskAversion snapCrossed.mid snapCrossed.spread
          (initState defaultCfg).position, 10,
        (initState defaultCfg).position - 10⟩] := by
  have hs : sellReady defaultCfg (initState defaultCfg) snapCrossed := by
    unfold sellReady ourBidQuote inventoryPenalty
    norm_num [snapCrossed, initState, defaultCfg, RISK_AVERSION, POSITION_LIMIT]
  have hb : buyReady defaultCfg (initState defaultCfg) snapCrossed := by
    unfold buyReady ourAskQuote inventoryPenalty
    norm_num [snapCrossed, initState, defaultCfg, RISK_AVERSION, POSITION_LIMIT]
  exact ⟨hs, hb,
    (c7_sell_before_buy defaultCfg (initState defaultCfg) snapCrossed).2.1 hs⟩

/-- C9 (amended): at the short cap with the SELL price condition true,
the SELL is blocked and the position cannot fall below -PositionLimit;
but the blocked SELL DOES fall through to the BUY branch, so "no trade,
position stays -100" only holds when the BUY price condition fails too
— under that extra hypothesis the step appends no trade and the position
stays at -PositionLimit. -/
theorem c9_blocked_sell (st : MMState) (row : Snapshot)
    (hcap : st.position = -defaultCfg.positionLimit)
    (_hp : row.ask ≤ ourBidQuote defaultCfg.riskAversion row.mid row.spread st.position)
    (hnb : ¬row.bid ≥ ourAskQuote defaultCfg.riskAversion row.mid row.spread st.position) :
    (mmStep defaultCfg st row).trades = st.trades ∧
    (mmStep defaultCfg st row).position = -defaultCfg.positionLimit := by
  have hns : ¬sellReady defaultCfg st row := by
    intro hsell
    have h2 := hsell.2
    rw [hcap] at h2
    exact lt_irrefl _ h2
  have hnb' : ¬buyReady defaultCfg st row := fun hb => hnb hb.1
  unfold mmStep appendPnl fillStep
  rw [if_neg hns, if_neg hnb']
  exact ⟨rfl, hcap⟩

/-- C9 witness: at position -100 against a touching book (SELL price
condition true, BUY price condition false due to the inventory lean) no
trade executes and the position stays -100. -/
theorem c9_blocked_sell_witness :
    stShortCap.position = -defaultCfg.positionLimit ∧
    (mmStep defaultCfg stShortCap snapTouch).trades = stShortCap.trades ∧
    (mmStep defaultCfg stShortCap snapTouch).position = -defaultCfg.positionLimit := by
  have hp : snapTouch.ask ≤ ourBidQuote defaultCfg.riskAversion snapTouch.mid
      snapTouch.spread stShortCap.position := by
    unfold ourBidQuote inventoryPenalty
    norm_num [snapTouch, stShortCap, defaultCfg, RISK_AVERSION]
  have hnb : ¬snapTouch.bid ≥ ourAskQuote defaultCfg.riskAversion snapTouch.mid
      snapTouch.spread stShortCap.position := by
    unfold ourAskQuote inventoryPenalty
    norm_num [snapTouch, stShortCap, defaultCfg, RISK_AVERSION]
  have h := c9_blocked_sell stShortCap snapTouch (by decide) hp hnb
  exact ⟨by decide, h.1, h.2⟩

/-- C9 counterexample: at position -100 with the SELL price condition
true on a crossed book, the claim says no trade executes and the
position stays -100 — but the blocked SELL falls through to the `elif`
BUY branch, which fires: one BUY trade executes and the position moves
to -90. -/
theorem c9_counterexample :
    stShortCap.position = -defaultCfg.positionLimit ∧
    snapCrossed.ask ≤ ourBidQuote defaultCfg.riskAversion snapCrossed.mid
      snapCrossed.spread stShortCap.position ∧
    (mmStep defaultCfg stShortCap snapCrossed).trades.length = 1 ∧
    (mmStep defaultCfg stShortCap snapCrossed).position = -90 := by
  have hp : snapCrossed.ask ≤ ourBidQuote defaultCfg.riskAversion snapCrossed.mid
      snapCrossed.spread stShortCap.position := by
    unfold ourBidQuote inventoryPenalty
    norm_num [snapCrossed, stShortCap, defaultCfg, RISK_AVERSION]
  have hns : ¬sellReady defaultCfg stShortCap snapCrossed := by
    intro hsell
    have h2 := hsell.2
    norm_num [stShortCap, defaultCfg, POSITION_LIMIT] at h2
  have hbr : buyReady defaultCfg stShortCap snapCrossed := by
    unfold buyReady ourAskQuote inventoryPenalty
    norm_num [snapCrossed, stShortCap, defaultCfg, RISK_AVERSION, POSITION_LIMIT]
  refine ⟨by decide, hp, ?_, ?_⟩ <;>
  · unfold mmStep appendPnl fillStep
    rw [if_neg hns, if_pos hbr]
    norm_num [buyExec, stShortCap]

/-- C8 (amended): the script performs no configuration validation: the
parameters are hard-coded positive constants, and the simulation loop
runs unconditionally for ANY configuration, producing one PnL value per
snapshot row past the first — there is no startup check and no refusal
path. -/
theorem c8_no_validation (cfg : Config) (snaps : List Snapshot) :
    (runMM cfg snaps).pnl_history.length = snaps.length - 1 ∧
    0 < POSITION_LIMIT ∧ 0 < SNAPSHOT_STRIDE ∧
    0 < RISK_AVERSION ∧ 0 < initial_cash := by
  refine ⟨?_, by decide, by decide, by norm_num [RISK_AVERSION],
    by norm_num [initial_cash]⟩
  unfold runMM
  rw [foldl_pnl_length]
  simp [initState]

/-- C8 counterexample: with a non-positive position limit the claim says
the simulation must refuse to run, but the loop runs anyway and produces
PnL output. -/
theorem c8_counterexample :
    cfgZero.positionLimit ≤ 0 ∧
    (runMM cfgZero [snapTouch, snapTouch]).pnl_history ≠ [] := by
  refine ⟨by decide, ?_⟩
  have hl : (runMM cfgZero [snapTouch, snapTouch]).pnl_history.length = 1 := by
    unfold runMM
    rw [foldl_pnl_length]
    rfl
  intro h
  rw [h] at hl
  simp at hl

end Backtest
